import Mathlib

set_option maxRecDepth 40000

/-!
A shallow embedding of the ChronicStable doctor-chat core: the patient
context builder (`utils/context_builder.py`) and the Ollama LLM gateway
(`services/ollama_service.py`), together with theorems checking the
specification's claims about them.

Modelling conventions:
* Python `datetime` values are modelled by the `DateTime` structure with
  lexicographic comparison, mirroring Python's field-by-field ordering.
* The data-access collaborator (`DatabaseService`) is modelled as a record
  of pure lookup functions, as the spec treats persistence as an external
  capability; entity shapes follow `models/schema.py`.
* `datetime.now()` is read inside the appointment list comprehension, once
  per appointment; we model the wall clock as a function `Nat → DateTime`
  from the index of the read to the value returned.
* The HTTP layer is modelled by an outcome taxonomy (`HttpOutcome`):
  transport failure / non-2xx (a `requests.RequestException` with message),
  malformed JSON body, or a parsed body with an optional `response` field.
-/

/-- Python `datetime`: compared field-lexicographically. -/
structure DateTime where
  year : Nat
  month : Nat
  day : Nat
  hour : Nat
  minute : Nat
  second : Nat
deriving DecidableEq

/-- Comparison `a < b` for Python datetimes (lexicographic on the fields). -/
def DateTime.lt (a b : DateTime) : Bool :=
  if a.year ≠ b.year then decide (a.year < b.year)
  else if a.month ≠ b.month then decide (a.month < b.month)
  else if a.day ≠ b.day then decide (a.day < b.day)
  else if a.hour ≠ b.hour then decide (a.hour < b.hour)
  else if a.minute ≠ b.minute then decide (a.minute < b.minute)
  else decide (a.second < b.second)

/-- Zero-pad a natural number to two digits (strftime `%m`, `%d`, `%H`, `%M`). -/
def pad2 (n : Nat) : String :=
  if n < 10 then "0" ++ toString n else toString n

/-- Zero-pad a natural number to four digits (strftime `%Y`). -/
def pad4 (n : Nat) : String :=
  if n < 10 then "000" ++ toString n
  else if n < 100 then "00" ++ toString n
  else if n < 1000 then "0" ++ toString n
  else toString n

/-- Rendering of `d.strftime('%Y-%m-%d')`. -/
def DateTime.fmtDate (d : DateTime) : String :=
  pad4 d.year ++ "-" ++ pad2 d.month ++ "-" ++ pad2 d.day

/-- Rendering of `d.strftime('%Y-%m-%d %H:%M')`. -/
def DateTime.fmtDateTime (d : DateTime) : String :=
  d.fmtDate ++ " " ++ pad2 d.hour ++ ":" ++ pad2 d.minute

/-- Python `str.capitalize()`: first character upper-cased, the rest lower-cased. -/
def pyCapitalize (s : String) : String :=
  match s.toList with
  | [] => ""
  | c :: cs => String.mk (c.toUpper :: cs.map Char.toLower)

/-- Patient record (`models/schema.py`). -/
structure Patient where
  id : Int
  name : String
  date_of_birth : String
  contact_information : String
  medical_record_number : String
  category : String
deriving DecidableEq

/-- Consultation record (`models/schema.py`). -/
structure Consultation where
  id : Int
  patient_id : Int
  doctor_id : Int
  date : DateTime
  notes : String
  diagnosis : String
  treatment_plan : String
deriving DecidableEq

/-- Appointment record (`models/schema.py`). -/
structure Appointment where
  id : Int
  patient_id : Int
  doctor_id : Int
  date_time : DateTime
  status : String
  purpose : String
deriving DecidableEq

/-- The read capability of the data-access collaborator consumed by the
context builder (`services/database_service.py`, read operations only). -/
structure DatabaseService where
  get_patient : Int → Option Patient
  get_patient_consultations : Int → List Consultation
  get_patient_appointments : Int → List Appointment
  get_doctor_name : Int → String

/-- The patient-identity block of the context
(`context_builder.py`, lines 29–37). -/
def patient_info_parts (patient : Patient) : List String :=
  ["PATIENT INFORMATION:",
   "Name: " ++ patient.name,
   "Date of Birth: " ++ patient.date_of_birth,
   "Medical Record Number: " ++ patient.medical_record_number,
   "Contact: " ++ patient.contact_information,
   "Category: " ++ pyCapitalize patient.category,
   "\n"]

/-- The lines rendered for one consultation (`context_builder.py`, lines 44–52). -/
def consultation_lines (db : DatabaseService) (c : Consultation) : List String :=
  ["Consultation on " ++ c.date.fmtDate ++ " with " ++ db.get_doctor_name c.doctor_id ++ ":",
   "Diagnosis: " ++ c.diagnosis,
   "Notes: " ++ c.notes,
   "Treatment: " ++ c.treatment_plan,
   "\n"]

/-- The consultation-history block (`context_builder.py`, lines 40–54):
header, then the first three consultations rendered, or a fixed line if
the list is empty. -/
def consultation_parts (db : DatabaseService) (cs : List Consultation) : List String :=
  "CONSULTATION HISTORY:" ::
    (if cs.isEmpty then ["No previous consultations found."]
     else (cs.take 3).flatMap (consultation_lines db))

/-- The list comprehension of `context_builder.py`, lines 58–61:
`[apt for apt in appointments if apt.date_time > datetime.now() and apt.status == "scheduled"]`.
`datetime.now()` is evaluated once per appointment; `clock i` is the value
returned by the `i`-th read. -/
def upcomingAux (clock : Nat → DateTime) (i : Nat) : List Appointment → List Appointment
  | [] => []
  | a :: rest =>
      if DateTime.lt (clock i) a.date_time && a.status == "scheduled"
      then a :: upcomingAux clock (i + 1) rest
      else upcomingAux clock (i + 1) rest

/-- The `upcoming_appointments` list of `context_builder.py`. -/
def upcoming_appointments (apts : List Appointment) (clock : Nat → DateTime) : List Appointment :=
  upcomingAux clock 0 apts

/-- The line rendered for one upcoming appointment (`context_builder.py`, lines 66–69). -/
def appointment_line (db : DatabaseService) (a : Appointment) : String :=
  a.date_time.fmtDateTime ++ " with " ++ db.get_doctor_name a.doctor_id ++ ": " ++ a.purpose

/-- The upcoming-appointments block (`context_builder.py`, lines 57–71). -/
def appointment_parts (db : DatabaseService) (apts : List Appointment)
    (clock : Nat → DateTime) : List String :=
  "UPCOMING APPOINTMENTS:" ::
    (let upcoming := upcoming_appointments apts clock
     if upcoming.isEmpty then ["No upcoming appointments."]
     else upcoming.map (appointment_line db))

/-- The function `build_patient_context` (`context_builder.py`, lines 11–73). The
wall clock for the appointment comprehension is passed explicitly. -/
def build_patient_context (patient_id : Int) (db : DatabaseService)
    (clock : Nat → DateTime) : String :=
  match db.get_patient patient_id with
  | none => "No patient data available."
  | some patient =>
      String.intercalate "\n"
        (patient_info_parts patient
          ++ consultation_parts db (db.get_patient_consultations patient_id)
          ++ appointment_parts db (db.get_patient_appointments patient_id) clock)

/-- Strip trailing `'/'` characters: Python `str.rstrip('/')`. -/
def pyRstripSlash (s : String) : String :=
  String.mk (s.toList.reverse.dropWhile (· = '/')).reverse

/-- The Ollama gateway (`services/ollama_service.py`): configuration fixed
at construction. -/
structure OllamaService where
  base_url : String
  model : String

/-- Constructor `OllamaService.__init__` (`ollama_service.py`, lines 14–24): the base
URL is right-stripped of slashes; the generation endpoint is the base URL
itself. -/
def OllamaService.init (base_url model : String) : OllamaService :=
  ⟨pyRstripSlash base_url, model⟩

/-- Field `self.generate_endpoint` (`ollama_service.py`, line 24). -/
def OllamaService.generate_endpoint (svc : OllamaService) : String :=
  svc.base_url

/-- The JSON payload POSTed by `get_response` (`ollama_service.py`, lines 41–50). -/
structure Payload where
  model : String
  prompt : String
  stream : Bool
  temperature : ℚ
  top_p : ℚ
  max_tokens : Nat
deriving DecidableEq

/-- The prompt assembly of `get_response` (`ollama_service.py`, lines 36–39):
`if context:` is Python truthiness, so `None` and the empty string both
leave the prompt raw. -/
def OllamaService.complete_prompt (prompt : String) (context : Option String) : String :=
  match context with
  | some c => if c = "" then prompt else "Context:\n" ++ c ++ "\n\nQuestion: " ++ prompt
  | none => prompt

/-- The payload sent by `get_response` for a given prompt and context
(`ollama_service.py`, lines 41–50). -/
def OllamaService.build_payload (svc : OllamaService) (prompt : String)
    (context : Option String) : Payload :=
  ⟨svc.model, OllamaService.complete_prompt prompt context, false, 7 / 10, 9 / 10, 1024⟩

/-- Outcome taxonomy for the single HTTP POST issued by `get_response`:
a `requests.RequestException` (transport failure, or the `HTTPError` a
non-2xx status turns into via `raise_for_status`) carrying `str(e)`;
a body that fails JSON parsing; or a parsed JSON body whose `response`
field is present or absent. -/
inductive HttpOutcome where
  | requestError (msg : String)
  | invalidJson
  | success (responseField : Option String)
deriving DecidableEq

/-- Method `OllamaService.get_response` (`ollama_service.py`, lines 26–67).
The payload of lines 41–50 is assembled and POSTed; `outcome` is what the
transport and the response body yield for that request. -/
def OllamaService.get_response (svc : OllamaService) (prompt : String)
    (context : Option String) (outcome : HttpOutcome) : String :=
  let payload := svc.build_payload prompt context
  match outcome with
  | HttpOutcome.requestError msg =>
      "Error: " ++ ("Error connecting to Ollama API: " ++ msg)
  | HttpOutcome.invalidJson =>
      "Error: " ++ "Invalid JSON response from Ollama API"
  | HttpOutcome.success responseField =>
      responseField.getD "No response received from model."

/-- Outcome taxonomy for the health probe GET. -/
inductive ProbeOutcome where
  | requestError
  | status (code : Nat)
deriving DecidableEq

/-- The URL probed by `health_check` (`ollama_service.py`, line 76). -/
def OllamaService.health_check_url (svc : OllamaService) : String :=
  svc.base_url ++ "/api/health"

/-- Method `OllamaService.health_check` (`ollama_service.py`, lines 69–79). -/
def OllamaService.health_check (svc : OllamaService) (outcome : ProbeOutcome) : Bool :=
  match outcome with
  | ProbeOutcome.requestError => false
  | ProbeOutcome.status code => code == 200

/-! ### Spec-side definitions

These follow the wording of the specification (§4.1) and are compared with
the code-side definitions above by the theorems below. -/

/-- Spec §4.1, item 3, in the spec's words: "every appointment with status
exactly `scheduled` and a timestamp strictly later than the evaluation
instant". -/
def spec_upcoming (apts : List Appointment) (now : DateTime) : List Appointment :=
  apts.filter (fun a => a.status == "scheduled" && DateTime.lt now a.date_time)

/-- Spec §4.1, item 3: the upcoming-appointments section per the spec's
words, for a single evaluation instant `now`. -/
def spec_appointment_section (db : DatabaseService) (apts : List Appointment)
    (now : DateTime) : List String :=
  "UPCOMING APPOINTMENTS:" ::
    (let u := spec_upcoming apts now
     if u = [] then ["No upcoming appointments."]
     else u.map (appointment_line db))

/-- Spec §4.1, item 2: the consultation-history section per the spec's
words: the 3 most-recently-dated consultations by the input ordering, or an
explicit "none found" line when zero exist. -/
def spec_consultation_section (db : DatabaseService) (cs : List Consultation) : List String :=
  "CONSULTATION HISTORY:" ::
    (if cs = [] then ["No previous consultations found."]
     else (cs.take 3).flatMap (consultation_lines db))

/-! ### Helper lemmas -/

/-- When every clock read returns the same instant, the appointment
comprehension is a plain filter on status and time. -/
theorem upcomingAux_const (c : DateTime) (l : List Appointment) : ∀ i : Nat,
    upcomingAux (fun _ => c) i l
      = l.filter (fun a => a.status == "scheduled" && DateTime.lt c a.date_time) := by
  induction l with
  | nil => intro i; rfl
  | cons a rest ih =>
      intro i
      simp only [upcomingAux, List.filter_cons, ih, Bool.and_comm]

/-- Sample patient used by closed-instance theorems. -/
def patient0 : Patient :=
  ⟨1, "John Doe", "1980-05-15", "john.doe@email.com", "MRN12345", "chronic"⟩

/-- An appointment one day before the first clock read of `tickingClock`. -/
def apptA : Appointment := ⟨1, 1, 1, ⟨2025, 6, 10, 0, 0, 0⟩, "scheduled", "Follow-up"⟩

/-- An appointment strictly after the first clock read of `tickingClock`
but not after the second. -/
def apptB : Appointment := ⟨2, 1, 1, ⟨2025, 6, 11, 0, 0, 0⟩, "scheduled", "Check-up"⟩

/-- A wall clock that advances between the first and second read. -/
def tickingClock : Nat → DateTime :=
  fun i => if i = 0 then ⟨2025, 6, 9, 0, 0, 0⟩ else ⟨2025, 6, 12, 0, 0, 0⟩

/-- A concrete data-access collaborator with one patient and the two
appointments above. -/
def cexDb : DatabaseService :=
  ⟨fun i => if i = 1 then some patient0 else none,
   fun _ => [],
   fun _ => [apptA, apptB],
   fun _ => "Dr. Jane Smith"⟩

/-- A collaborator that resolves no patient at all. -/
def emptyDb : DatabaseService :=
  ⟨fun _ => none, fun _ => [], fun _ => [], fun _ => "Unknown Doctor"⟩

/-- A fixed instant used by closed-instance theorems. -/
def t0 : DateTime := ⟨2025, 1, 1, 0, 0, 0⟩

/-- Consultations used by closed-instance theorems (dates descending). -/
def cons1 : Consultation := ⟨1, 1, 1, ⟨2025, 5, 20, 0, 0, 0⟩, "n1", "d1", "p1"⟩

/-- Second-most-recent sample consultation. -/
def cons2 : Consultation := ⟨2, 1, 1, ⟨2025, 3, 5, 0, 0, 0⟩, "n2", "d2", "p2"⟩

/-- Third-most-recent sample consultation. -/
def cons3 : Consultation := ⟨3, 1, 1, ⟨2025, 1, 15, 0, 0, 0⟩, "n3", "d3", "p3"⟩

/-- Oldest sample consultation, beyond the three kept. -/
def cons4 : Consultation := ⟨4, 1, 1, ⟨2024, 11, 10, 0, 0, 0⟩, "n4", "d4", "p4"⟩

/-- A collaborator with one patient and four consultations. -/
def consultDb : DatabaseService :=
  ⟨fun i => if i = 1 then some patient0 else none,
   fun _ => [cons1, cons2, cons3, cons4],
   fun _ => [],
   fun _ => "Dr. Jane Smith"⟩

/-! ### Claim C1 -/

/-- C1 counterexample: the wall clock is NOT captured once per call — it is
re-read for every appointment. With a clock that advances between the two
reads, the built context differs from the one the claim describes (filtering
with the instant captured at the first read). -/
theorem build_upcoming_once_captured_cex :
    build_patient_context 1 cexDb tickingClock
      ≠ String.intercalate "\n"
          (patient_info_parts patient0
            ++ consultation_parts cexDb []
            ++ spec_appointment_section cexDb [apptA, apptB] (tickingClock 0)) := by
  decide

/-- C1 (amended): when every read of the wall clock during the call returns
the same instant `now`, the UPCOMING APPOINTMENTS section of
`build_patient_context` contains exactly the appointments whose status is
exactly "scheduled" and whose timestamp is strictly later than `now`. -/
theorem build_upcoming_section_exact (pid : Int) (db : DatabaseService)
    (now : DateTime) (patient : Patient) (h : db.get_patient pid = some patient) :
    build_patient_context pid db (fun _ => now)
      = String.intercalate "\n"
          (patient_info_parts patient
            ++ consultation_parts db (db.get_patient_consultations pid)
            ++ spec_appointment_section db (db.get_patient_appointments pid) now) := by
  simp only [build_patient_context, h, appointment_parts, spec_appointment_section,
    upcoming_appointments, upcomingAux_const, spec_upcoming, List.isEmpty_iff]

/-- C1 witness: the amended theorem applied to a concrete collaborator. -/
theorem build_upcoming_section_exact_witness :
    build_patient_context 1 cexDb (fun _ => t0)
      = String.intercalate "\n"
          (patient_info_parts patient0
            ++ consultation_parts cexDb (cexDb.get_patient_consultations 1)
            ++ spec_appointment_section cexDb (cexDb.get_patient_appointments 1) t0) :=
  build_upcoming_section_exact 1 cexDb t0 patient0 (by decide)

/-! ### Claim C4 -/

/-- C4: the CONSULTATION HISTORY section of `build_patient_context` is the
spec-side section (first three consultations of the input list, or the
explicit "none found" line when there are none); moreover, when the input
list has more than three entries, the section consists of exactly the
renders of the first three, excluding all later entries. -/
theorem build_consultation_section_exact (pid : Int) (db : DatabaseService)
    (clock : Nat → DateTime) (patient : Patient)
    (h : db.get_patient pid = some patient) :
    build_patient_context pid db clock
      = String.intercalate "\n"
          (patient_info_parts patient
            ++ spec_consultation_section db (db.get_patient_consultations pid)
            ++ appointment_parts db (db.get_patient_appointments pid) clock)
    ∧ ∀ c1 c2 c3 c4 rest, db.get_patient_consultations pid = c1 :: c2 :: c3 :: c4 :: rest →
        spec_consultation_section db (db.get_patient_consultations pid)
          = "CONSULTATION HISTORY:"
              :: (consultation_lines db c1 ++ consultation_lines db c2
                    ++ consultation_lines db c3) := by
  constructor
  · simp only [build_patient_context, h, consultation_parts,
      spec_consultation_section, List.isEmpty_iff]
  · intro c1 c2 c3 c4 rest hcs
    rw [hcs]
    simp [spec_consultation_section, List.take]

/-- C4 witness: the theorem applied to a collaborator with four
consultations on record. -/
theorem build_consultation_section_exact_witness :
    (build_patient_context 1 consultDb (fun _ => t0)
      = String.intercalate "\n"
          (patient_info_parts patient0
            ++ spec_consultation_section consultDb (consultDb.get_patient_consultations 1)
            ++ appointment_parts consultDb (consultDb.get_patient_appointments 1)
                (fun _ => t0)))
    ∧ spec_consultation_section consultDb (consultDb.get_patient_consultations 1)
        = "CONSULTATION HISTORY:"
            :: (consultation_lines consultDb cons1 ++ consultation_lines consultDb cons2
                  ++ consultation_lines consultDb cons3) := by
  have t := build_consultation_section_exact 1 consultDb (fun _ => t0) patient0 (by decide)
  exact ⟨t.1, t.2 cons1 cons2 cons3 cons4 [] (by decide)⟩

/-! ### Claim C6 -/

/-- C6 counterexample: when no patient resolves, the sentinel actually
returned is "No patient data available.", not the claim's literal
"no data available". -/
theorem build_absent_patient_cex :
    emptyDb.get_patient 1 = none
      ∧ build_patient_context 1 emptyDb tickingClock ≠ "no data available" := by
  decide

/-- C6 (amended): for every identifier the collaborator resolves no patient
for, `build_patient_context` returns the fixed sentinel
"No patient data available."; since this holds for arbitrary consultation,
appointment and doctor-name capabilities, none of those lookups can affect
the result. -/
theorem build_absent_patient (pid : Int) (db : DatabaseService)
    (clock : Nat → DateTime) (h : db.get_patient pid = none) :
    build_patient_context pid db clock = "No patient data available." := by
  simp only [build_patient_context, h]

/-- C6 witness: the amended theorem at a concrete empty collaborator. -/
theorem build_absent_patient_witness :
    build_patient_context 1 emptyDb (fun _ => t0) = "No patient data available." :=
  build_absent_patient 1 emptyDb (fun _ => t0) (by decide)

/-! ### Claim C2 -/

/-- Helper: the transport-failure string can never coincide with the
malformed-body string, whatever the embedded failure description. -/
theorem transport_msg_ne_invalid (msg : String) :
    "Error: " ++ ("Error connecting to Ollama API: " ++ msg)
      ≠ "Error: Invalid JSON response from Ollama API" := by
  intro h
  rw [← String.append_assoc] at h
  have h2 := congrArg String.data h
  rw [String.data_append] at h2
  have h3 := congrArg (List.take 8) h2
  rw [List.take_append_of_le_length (by decide)] at h3
  exact absurd h3 (by decide)

/-- C2: a transport failure or non-2xx status yields an "Error: "-prefixed
string embedding the underlying failure description; a malformed body
yields a distinct "Error: "-prefixed string; the two strings always differ,
and both cases return a string value rather than raising. -/
theorem get_response_failure_strings (svc : OllamaService) (prompt : String)
    (context : Option String) (msg : String) :
    OllamaService.get_response svc prompt context (HttpOutcome.requestError msg)
        = "Error: " ++ ("Error connecting to Ollama API: " ++ msg)
    ∧ OllamaService.get_response svc prompt context HttpOutcome.invalidJson
        = "Error: " ++ "Invalid JSON response from Ollama API"
    ∧ OllamaService.get_response svc prompt context (HttpOutcome.requestError msg)
        ≠ OllamaService.get_response svc prompt context HttpOutcome.invalidJson :=
  ⟨rfl, rfl, transport_msg_ne_invalid msg⟩

/-! ### Claim C3 -/

/-- C3: both core operations are total: `build_patient_context` always
returns either the absent-patient sentinel or a context headed by the
patient-information block, and `get_response` returns, for every outcome of
the taxonomy, an error string, the fixed fallback, or the payload's
response text. -/
theorem core_total (pid : Int) (db : DatabaseService) (clock : Nat → DateTime)
    (svc : OllamaService) (prompt : String) (context : Option String) :
    (build_patient_context pid db clock = "No patient data available."
      ∨ ∃ parts, build_patient_context pid db clock
          = String.intercalate "\n" ("PATIENT INFORMATION:" :: parts))
    ∧ ∀ outcome : HttpOutcome,
        (∃ e, OllamaService.get_response svc prompt context outcome = "Error: " ++ e)
        ∨ OllamaService.get_response svc prompt context outcome
            = "No response received from model."
        ∨ ∃ t, outcome = HttpOutcome.success (some t)
            ∧ OllamaService.get_response svc prompt context outcome = t := by
  constructor
  · cases hp : db.get_patient pid with
    | none => exact Or.inl (by simp [build_patient_context, hp])
    | some p =>
        refine Or.inr ⟨["Name: " ++ p.name, "Date of Birth: " ++ p.date_of_birth,
          "Medical Record Number: " ++ p.medical_record_number,
          "Contact: " ++ p.contact_information,
          "Category: " ++ pyCapitalize p.category, "\n"]
            ++ consultation_parts db (db.get_patient_consultations pid)
            ++ appointment_parts db (db.get_patient_appointments pid) clock, ?_⟩
        simp [build_patient_context, hp, patient_info_parts]
  · intro outcome
    cases outcome with
    | requestError msg =>
        exact Or.inl ⟨"Error connecting to Ollama API: " ++ msg, rfl⟩
    | invalidJson => exact Or.inl ⟨"Invalid JSON response from Ollama API", rfl⟩
    | success f =>
        cases f with
        | none => exact Or.inr (Or.inl rfl)
        | some t => exact Or.inr (Or.inr ⟨t, rfl, rfl⟩)

/-! ### Claim C5 -/

/-- Sample gateway configuration used by closed-instance theorems. -/
def svc0 : OllamaService := OllamaService.init "http://localhost:11434" "phi"

/-- C5 counterexample: with an empty context string — a supplied context —
the sent prompt is the raw prompt, not the claimed "Context:" wrapper. -/
theorem prompt_assembly_cex :
    (svc0.build_payload "hello" (some "")).prompt = "hello"
    ∧ (svc0.build_payload "hello" (some "")).prompt
        ≠ "Context:\n" ++ "" ++ "\n\nQuestion: " ++ "hello" := by
  decide

/-- C5 (amended): for a present and non-empty context the sent prompt is
exactly the "Context:\n{context}\n\nQuestion: {prompt}" wrapper; with no
context the raw prompt is sent unmodified. -/
theorem prompt_assembly (svc : OllamaService) (prompt c : String) (h : c ≠ "") :
    (svc.build_payload prompt (some c)).prompt
        = "Context:\n" ++ c ++ "\n\nQuestion: " ++ prompt
    ∧ (svc.build_payload prompt none).prompt = prompt := by
  refine ⟨?_, rfl⟩
  simp [OllamaService.build_payload, OllamaService.complete_prompt, h]

/-- C5 witness: the amended theorem at the spec's own test vector. -/
theorem prompt_assembly_witness :
    (svc0.build_payload "What is the diagnosis?" (some "PATIENT INFO...")).prompt
        = "Context:\n" ++ "PATIENT INFO..." ++ "\n\nQuestion: " ++ "What is the diagnosis?"
    ∧ (svc0.build_payload "What is the diagnosis?" none).prompt
        = "What is the diagnosis?" :=
  prompt_assembly svc0 "What is the diagnosis?" "PATIENT INFO..." (by decide)

/-! ### Claim C7 -/

/-- C7 counterexample: the fallback literal actually returned for a parsed
body with no `response` field is "No response received from model.", not
the claim's "no response received from model". -/
theorem missing_field_fallback_cex :
    OllamaService.get_response svc0 "q" none (HttpOutcome.success none)
      ≠ "no response received from model" := by
  decide

/-- C7 (amended): a 2xx response whose body parses but lacks the generated
text field yields the fixed literal "No response received from model.",
which is not an "Error: "-prefixed string. -/
theorem missing_field_fallback (svc : OllamaService) (prompt : String)
    (context : Option String) :
    OllamaService.get_response svc prompt context (HttpOutcome.success none)
        = "No response received from model."
    ∧ ∀ r, OllamaService.get_response svc prompt context (HttpOutcome.success none)
        ≠ "Error: " ++ r := by
  refine ⟨rfl, ?_⟩
  intro r h
  have h1 : OllamaService.get_response svc prompt context (HttpOutcome.success none)
      = "No response received from model." := rfl
  rw [h1] at h
  have h2 := congrArg String.data h
  rw [String.data_append] at h2
  have h3 := congrArg (List.take 1) h2
  rw [List.take_append_of_le_length (by decide)] at h3
  exact absurd h3 (by decide)

/-! ### Claim C8 -/

/-- C8: the context builder is deterministic in its inputs: two calls
seeing identical underlying data and identical clock readings produce
identical (hence byte-identical) output. -/
theorem build_deterministic (pid : Int) (db1 db2 : DatabaseService)
    (clock1 clock2 : Nat → DateTime)
    (hp : db1.get_patient pid = db2.get_patient pid)
    (hc : db1.get_patient_consultations pid = db2.get_patient_consultations pid)
    (ha : db1.get_patient_appointments pid = db2.get_patient_appointments pid)
    (hd : ∀ d, db1.get_doctor_name d = db2.get_doctor_name d)
    (hk : ∀ i, clock1 i = clock2 i) :
    build_patient_context pid db1 clock1 = build_patient_context pid db2 clock2 := by
  have hd' : db1.get_doctor_name = db2.get_doctor_name := funext hd
  have hk' : clock1 = clock2 := funext hk
  have hcl : consultation_lines db1 = consultation_lines db2 := by
    funext c; simp [consultation_lines, hd']
  have hal : appointment_line db1 = appointment_line db2 := by
    funext a; simp [appointment_line, hd']
  unfold build_patient_context
  rw [hp, hc, ha, hk']
  cases db2.get_patient pid with
  | none => rfl
  | some p => simp [consultation_parts, appointment_parts, hcl, hal]

/-- C8 witness: two calls against equal data and clocks. -/
theorem build_deterministic_witness :
    build_patient_context 1 cexDb (fun _ => t0)
      = build_patient_context 1 cexDb (fun _ => DateTime.mk 2025 1 1 0 0 0) :=
  build_deterministic 1 cexDb cexDb (fun _ => t0) (fun _ => DateTime.mk 2025 1 1 0 0 0)
    rfl rfl rfl (fun _ => rfl) (fun _ => rfl)

/-! ### Claim C9 -/

/-- C9: the probe targets the fixed path `<base>/api/health`, reports
`true` exactly for HTTP status 200, and maps every transport failure to
`false` while always returning a boolean. -/
theorem health_check_spec (svc : OllamaService) (outcome : ProbeOutcome) :
    (svc.health_check outcome = true ↔ outcome = ProbeOutcome.status 200)
    ∧ svc.health_check ProbeOutcome.requestError = false
    ∧ svc.health_check_url = svc.base_url ++ "/api/health" := by
  refine ⟨?_, rfl, rfl⟩
  cases outcome with
  | requestError => simp [OllamaService.health_check]
  | status code => simp [OllamaService.health_check]

/-! ### Claim C10 -/

/-- C10: an empty context string behaves exactly like no context: the same
payload is sent — with the raw prompt — and the returned text is identical
for every outcome. -/
theorem empty_context_raw (svc : OllamaService) (prompt : String) :
    svc.build_payload prompt (some "") = svc.build_payload prompt none
    ∧ (svc.build_payload prompt (some "")).prompt = prompt
    ∧ ∀ outcome, svc.get_response prompt (some "") outcome
        = svc.get_response prompt none outcome := by
  refine ⟨rfl, rfl, fun outcome => ?_⟩
  cases outcome <;> rfl
